import Mathlib

/-!
Shallow embedding of the audio engine in `src/src/services/SoundManager.ts`
(repository Blackhole_Arena).

The engine is a single mutable object; we model it as a state record
`SMState` and every public method as a pure state-transition function,
translated line by line from the TypeScript source.  Conventions:

* `HTMLAudioElement`s live in a heap `elems : List (Nat × AudioElem)`
  keyed by allocation number, because the pool, the registry and
  `currentMusic` alias the same mutable elements.
* Web Audio gain automation (`setValueAtTime` / `linearRampToValueAtTime`)
  is recorded as an event list on the gain node; `gain.gain.value` reads
  return the last directly-assigned scalar, which coincides with the real
  getter at every read site of the source (all reads happen at the same
  `currentTime` as the preceding assignment).
* `setTimeout` cleanups scheduled by `stop` become pending `StopTimer`s;
  `fireStopTimer` executes one.
* `console.warn` calls are logged in `warnings`; `triggerEvent` calls are
  logged in `events` (listener dispatch itself is not modelled).
* `fetch` is modelled as a deterministic byte source `fetchBytes`; every
  issued fetch is appended to `fetchLog`.  `async` methods (`loadSound`)
  become explicit coroutines (`LoadProc` / `loadStep`) with one suspension
  point at the `await fetch`, so interleavings of concurrent loads are
  expressible; `loadSound` runs one call to completion.
* `new AudioContext()` is assumed to succeed (platform audio available);
  media times are rationals.
-/

namespace SoundManager

/-- Kernel-computable fraction standing for the JS `number`s the engine
manipulates (volumes, times, playback rates).  Fractions are kept
unnormalized so that every arithmetic operation reduces inside the
kernel; every value the model constructs has a positive denominator. -/
structure Q where
  num : Int
  den : Nat
deriving Repr, DecidableEq

/-- The fraction a / b. -/
def mkQ (a : Int) (b : Nat) : Q := ⟨a, b⟩

instance (n : Nat) : OfNat Q n := ⟨⟨Int.ofNat n, 1⟩⟩

instance : Add Q := ⟨fun a b => ⟨a.num * b.den + b.num * a.den, a.den * b.den⟩⟩

instance : Mul Q := ⟨fun a b => ⟨a.num * b.num, a.den * b.den⟩⟩

instance : LE Q := ⟨fun a b => a.num * (b.den : Int) ≤ b.num * (a.den : Int)⟩

instance : LT Q := ⟨fun a b => a.num * (b.den : Int) < b.num * (a.den : Int)⟩

instance (a b : Q) : Decidable (a ≤ b) :=
  inferInstanceAs (Decidable (a.num * (b.den : Int) ≤ b.num * (a.den : Int)))

instance (a b : Q) : Decidable (a < b) :=
  inferInstanceAs (Decidable (a.num * (b.den : Int) < b.num * (a.den : Int)))

/-- JS `Math.max` on two numbers. -/
def qmax (a b : Q) : Q := if a < b then b else a

/-- JS `Math.min` on two numbers. -/
def qmin (a b : Q) : Q := if a < b then a else b

structure SoundOptions where
  volume : Option Q := none
  loop : Option Bool := none
  playbackRate : Option Q := none
  pan : Option Q := none
  distance : Option Q := none
  fadeIn : Option Q := none
  fadeOut : Option Q := none
deriving Repr, DecidableEq

/-- Model of an `HTMLAudioElement`: `new Audio()` starts paused at time 0. -/
structure AudioElem where
  paused : Bool := true
  currentTime : Q := 0
  volume : Q := 1
  loop : Bool := false
  playbackRate : Q := 1
  src : Option String := none
deriving Repr, DecidableEq

/-- One Web Audio gain-automation call recorded on a gain node. -/
inductive GainEvent
  | setValueAt (time value : Q)
  | rampTo (time value : Q)
deriving Repr, DecidableEq

structure GainNode where
  value : Q
  events : List GainEvent := []
deriving Repr, DecidableEq

/-- The `Sound` record of the source; `audio` is a heap key into `elems`. -/
structure Snd where
  id : String
  audio : Nat
  isMusic : Bool
  options : SoundOptions := {}
  gain : Option GainNode := none
  panner : Option Q := none
  isPlaying : Bool := false
  startTime : Option Q := none
  endTime : Option Q := none
deriving Repr, DecidableEq

/-- One `triggerEvent` call site of the source. -/
inductive EngineEvent
  | loadEv (id : String) (isMusic : Bool)
  | errorEv (id : String)
  | playEv (id : String) (isMusic : Bool)
  | pauseEv (id : String) (isMusic : Bool)
  | resumeEv (id : String) (isMusic : Bool)
  | endEv (id : String) (isMusic : Bool)
  | volumeChange (channel : String) (volume : Q)
  | muteChange (channel : String) (muted : Bool)
deriving Repr, DecidableEq

/-- A pending `setTimeout` scheduled by `stop` with a fade-out. -/
structure StopTimer where
  due : Q
  soundId : String
deriving Repr, DecidableEq

structure SMState where
  audioContextLive : Bool := false
  sounds : List Snd := []
  soundsCache : List (String × Nat) := []
  musicVolume : Q := 1
  sfxVolume : Q := 1
  isMusicMuted : Bool := false
  isSfxMuted : Bool := false
  currentMusic : Option String := none
  elems : List (Nat × AudioElem) := []
  nextElem : Nat := 0
  audioPool : List Nat := []
  isInitialized : Bool := false
  timers : List StopTimer := []
  events : List EngineEvent := []
  warnings : List String := []
  fetchLog : List String := []
  now : Q := 0
deriving Repr, DecidableEq

def maxPoolSize : Nat := 20

/-! ### Heap of audio elements -/

def lookupElem (l : List (Nat × AudioElem)) (eid : Nat) : Option AudioElem :=
  (l.find? (fun p => p.1 == eid)).map (fun p => p.2)

def updElem (l : List (Nat × AudioElem)) (eid : Nat) (f : AudioElem → AudioElem) :
    List (Nat × AudioElem) :=
  l.map (fun p => if p.1 == eid then (p.1, f p.2) else p)

def elemOf (s : SMState) (eid : Nat) : AudioElem :=
  (lookupElem s.elems eid).getD {}

def setElem (s : SMState) (eid : Nat) (f : AudioElem → AudioElem) : SMState :=
  { s with elems := updElem s.elems eid f }

def elemExists (s : SMState) (eid : Nat) : Bool :=
  (lookupElem s.elems eid).isSome

def newElem (s : SMState) : Nat × SMState :=
  (s.nextElem,
    { s with elems := s.elems ++ [(s.nextElem, {})], nextElem := s.nextElem + 1 })

/-! ### Registry of sounds -/

def findSound (s : SMState) (id : String) : Option Snd :=
  s.sounds.find? (fun x => x.id == id)

def setSound (s : SMState) (id : String) (f : Snd → Snd) : SMState :=
  { s with sounds := s.sounds.map (fun x => if x.id == id then f x else x) }

/-- `Map.set` semantics: replace an existing entry, else append. -/
def putSound (s : SMState) (x : Snd) : SMState :=
  if s.sounds.any (fun y => y.id == x.id) then
    { s with sounds := s.sounds.map (fun y => if y.id == x.id then x else y) }
  else
    { s with sounds := s.sounds ++ [x] }

def lookupCache (s : SMState) (url : String) : Option Nat :=
  (s.soundsCache.find? (fun c => c.1 == url)).map (fun c => c.2)

/-- `Map.set` on the byte cache. -/
def putCache (s : SMState) (url : String) (b : Nat) : SMState :=
  if s.soundsCache.any (fun c => c.1 == url) then
    { s with soundsCache :=
        s.soundsCache.map (fun c => if c.1 == url then (url, b) else c) }
  else
    { s with soundsCache := s.soundsCache ++ [(url, b)] }

def triggerEvent (s : SMState) (e : EngineEvent) : SMState :=
  { s with events := s.events ++ [e] }

/-! ### Pool and initialization -/

def createPooledAudio (s : SMState) : Nat × SMState :=
  let es := newElem s
  (es.1, { es.2 with audioPool := es.2.audioPool ++ [es.1] })

def createPooledAudioN : Nat → SMState → SMState
  | 0, s => s
  | n + 1, s => createPooledAudioN n (createPooledAudio s).2

/-- `init()`: creates the audio context (modelled as succeeding) and
pre-creates five pooled elements.  Idempotent. -/
def init (s : SMState) : SMState :=
  if s.isInitialized then s
  else
    createPooledAudioN 5
      { s with audioContextLive := true, isInitialized := true }

/-- `ensureInitialized()`: lazily `init`s, returns
`isInitialized && audioContext !== null`. -/
def ensureInitialized (s : SMState) : Bool × SMState :=
  let s1 := if s.isInitialized then s else init s
  (s1.isInitialized && s1.audioContextLive, s1)

/-- `getAudioFromPool()`: first paused element, else grow under capacity,
else evict the front of the pool (pausing it) and re-append it. -/
def getAudioFromPool (s : SMState) : Nat × SMState :=
  match s.audioPool.find? (fun eid => (elemOf s eid).paused) with
  | some eid => (eid, s)
  | none =>
    if s.audioPool.length < maxPoolSize then
      createPooledAudio s
    else
      match s.audioPool with
      | [] => createPooledAudio s
      | eid :: rest =>
        let s1 := setElem s eid (fun a => { a with paused := true })
        (eid, { s1 with audioPool := rest ++ [eid] })

/-! ### Loading (async coroutine) -/

/-- Abstract byte content the transport returns for a URL. -/
def fetchBytes (url : String) : Nat := url.length

inductive LoadPhase
  | start
  | awaitFetch
  | done (result : Option String)
deriving Repr, DecidableEq

structure LoadProc where
  id : String
  url : String
  isMusic : Bool := false
  phase : LoadPhase := LoadPhase.start
deriving Repr, DecidableEq

/-- Registers a freshly decoded sound: pool element, object URL as `src`,
fresh `Sound` record inserted in the registry. -/
def installSound (s : SMState) (id url : String) (isMusic : Bool) : SMState :=
  let es := getAudioFromPool s
  let s2 := setElem es.2 es.1 (fun a => { a with src := some url })
  putSound s2 { id := id, audio := es.1, isMusic := isMusic }

/-- One scheduler step of `loadSound(id, url, isMusic)`.  The `start`
phase runs up to (and including) issuing the `fetch`; `awaitFetch` is the
continuation after the fetch resolves. -/
def loadStep (s : SMState) (p : LoadProc) : SMState × LoadProc :=
  match p.phase with
  | LoadPhase.start =>
    let os := ensureInitialized s
    if !os.1 then (os.2, { p with phase := LoadPhase.done none })
    else if os.2.sounds.any (fun y => y.id == p.id) then
      (os.2, { p with phase := LoadPhase.done (some p.id) })
    else
      match lookupCache os.2 p.url with
      | some _ =>
        (installSound os.2 p.id p.url p.isMusic,
         { p with phase := LoadPhase.done (some p.id) })
      | none =>
        ({ os.2 with fetchLog := os.2.fetchLog ++ [p.url] },
         { p with phase := LoadPhase.awaitFetch })
  | LoadPhase.awaitFetch =>
    let s1 := putCache s p.url (fetchBytes p.url)
    let s2 := installSound s1 p.id p.url p.isMusic
    (triggerEvent s2 (EngineEvent.loadEv p.id p.isMusic),
     { p with phase := LoadPhase.done (some p.id) })
  | LoadPhase.done _ => (s, p)

/-- `await loadSound(id, url, isMusic)` run to completion with no
interleaved activity. -/
def loadSound (s : SMState) (id url : String) (isMusic : Bool) :
    SMState × Option String :=
  let r1 := loadStep s { id := id, url := url, isMusic := isMusic }
  match r1.2.phase with
  | LoadPhase.awaitFetch =>
    let r2 := loadStep r1.1 r1.2
    (r2.1, match r2.2.phase with | LoadPhase.done r => r | _ => none)
  | LoadPhase.done r => (r1.1, r)
  | _ => (r1.1, none)

/-! ### Playback -/

def cleanupAudioNodes (x : Snd) : Snd := { x with gain := none, panner := none }

/-- `stop(id, options)`.  With `fadeOut > 0`, a gain node and a live
context: schedules a ramp to 0 and a `setTimeout` cleanup; otherwise
pauses immediately, resets position and clears nodes.  Clears
`currentMusic` if it was this id. -/
def stop (s : SMState) (id : String) (opts : SoundOptions) : SMState :=
  match findSound s id with
  | none => s
  | some snd =>
    let s1 :=
      match opts.fadeOut, snd.gain with
      | some f, some g =>
        if 0 < f ∧ s.audioContextLive = true then
          let g' : GainNode :=
            { g with events := g.events ++
                [GainEvent.setValueAt s.now g.value, GainEvent.rampTo (s.now + f) 0] }
          let s' := setSound s id (fun x => { x with gain := some g' })
          { s' with timers := s'.timers ++ [{ due := s.now + f, soundId := id }] }
        else
          let s' := setElem s snd.audio (fun a => { a with paused := true, currentTime := 0 })
          setSound s' id (fun x => cleanupAudioNodes { x with isPlaying := false })
      | _, _ =>
        let s' := setElem s snd.audio (fun a => { a with paused := true, currentTime := 0 })
        setSound s' id (fun x => cleanupAudioNodes { x with isPlaying := false })
    if s1.currentMusic == some id then { s1 with currentMusic := none } else s1

/-- The body of the `setTimeout` scheduled by a fading `stop`, executed at
its due time: pause, reset to position zero, clear the playing flag and
the audio nodes. -/
def fireStopTimer (s : SMState) (t : StopTimer) : SMState :=
  let s0 := { s with timers := s.timers.filter (fun u => !(u == t)),
                     now := qmax s.now t.due }
  match findSound s0 t.soundId with
  | none => s0
  | some snd =>
    let s1 := setElem s0 snd.audio (fun a => { a with paused := true, currentTime := 0 })
    setSound s1 t.soundId (fun x => cleanupAudioNodes { x with isPlaying := false })

/-- `play(id, options)`, translated in source order: lazy init guard,
unknown-id warning, mute guard, effective volume, node graph (gain + pan;
`createMediaElementSource` abstracted), element properties, optional
fade-in ramp, state flags, single-music handling (stop the previous
current music passing the new call's `fadeOut`), `play` event. -/
def play (s : SMState) (id : String) (opts : SoundOptions) : SMState × Option String :=
  let os := ensureInitialized s
  if !(os.1 && os.2.audioContextLive) then (os.2, none)
  else
    let s0 := os.2
    match findSound s0 id with
    | none =>
      ({ s0 with warnings := s0.warnings ++ ["Sound " ++ id ++ " not loaded"] }, none)
    | some snd =>
      if (snd.isMusic && s0.isMusicMuted) || (!snd.isMusic && s0.isSfxMuted) then
        (s0, none)
      else
        let baseVolume := if snd.isMusic then s0.musicVolume else s0.sfxVolume
        let volume := (opts.volume.getD 1) * baseVolume
        let lp := opts.loop.getD false
        let rate := opts.playbackRate.getD 1
        let pn := opts.pan.getD 0
        let s1 := setSound s0 id
          (fun x => { x with gain := some { value := volume }, panner := some pn })
        let s2 := setElem s1 snd.audio
          (fun a => { a with loop := lp, playbackRate := rate, volume := volume })
        let s3 :=
          match opts.fadeIn with
          | some f =>
            if 0 < f then
              let s' := setSound s2 id (fun x =>
                { x with gain := some { value := 0, events :=
                    [GainEvent.setValueAt s2.now 0,
                     GainEvent.rampTo (s2.now + f) volume] } })
              setElem s' snd.audio (fun a => { a with paused := false })
            else
              setElem s2 snd.audio (fun a => { a with paused := false })
          | none => setElem s2 snd.audio (fun a => { a with paused := false })
        let s4 := setSound s3 id
          (fun x => { x with isPlaying := true, options := opts, startTime := some s3.now })
        let s5 :=
          if snd.isMusic then
            let s' :=
              match s4.currentMusic with
              | some j => if j == id then s4 else stop s4 j { fadeOut := opts.fadeOut }
              | none => s4
            { s' with currentMusic := some id }
          else s4
        (triggerEvent s5 (EngineEvent.playEv id snd.isMusic), some id)

/-- `pause(id)`: no-op when missing or not playing. -/
def pause (s : SMState) (id : String) : SMState :=
  match findSound s id with
  | none => s
  | some snd =>
    if snd.isPlaying then
      let s1 := setElem s snd.audio (fun a => { a with paused := true })
      let s2 := setSound s1 id (fun x => { x with isPlaying := false })
      triggerEvent s2 (EngineEvent.pauseEv id snd.isMusic)
    else s

/-- `resume(id)`: no-op when missing or already playing; otherwise plays
the element, sets the flag and emits a `resume` event. -/
def resume (s : SMState) (id : String) : SMState :=
  match findSound s id with
  | none => s
  | some snd =>
    if snd.isPlaying then s
    else
      let s1 := setElem s snd.audio (fun a => { a with paused := false })
      let s2 := setSound s1 id (fun x => { x with isPlaying := true })
      triggerEvent s2 (EngineEvent.resumeEv id snd.isMusic)

/-! ### Channel mixer -/

def clamp01 (v : Q) : Q := qmax 0 (qmin 1 v)

def optVolume (o : SoundOptions) : Q := o.volume.getD 1

/-- `setMusicVolume(v)`: clamps and stores; re-applies only to
`currentMusic`'s gain node (when both exist); `volumeChange` event. -/
def setMusicVolume (s : SMState) (v : Q) : SMState :=
  let s1 := { s with musicVolume := clamp01 v }
  let s2 :=
    match s1.currentMusic with
    | some j =>
      match findSound s1 j with
      | some snd =>
        match snd.gain with
        | some g =>
          setSound s1 j (fun x =>
            { x with gain := some { g with value := s1.musicVolume * optVolume x.options } })
        | none => s1
      | none => s1
    | none => s1
  triggerEvent s2 (EngineEvent.volumeChange "music" s2.musicVolume)

/-- The per-sound update `setSfxVolume` applies inside its `forEach`:
re-apply the stored sfx volume to a playing non-music sound with a gain
node. -/
def sfxVolumeUpd (sv : Q) (x : Snd) : Snd :=
  if !x.isMusic && x.isPlaying then
    match x.gain with
    | some g => { x with gain := some { g with value := sv * optVolume x.options } }
    | none => x
  else x

/-- `setSfxVolume(v)`: clamps and stores; re-applies to every playing
non-music sound that has a gain node; `volumeChange` event. -/
def setSfxVolume (s : SMState) (v : Q) : SMState :=
  let s1 := { s with sfxVolume := clamp01 v }
  let s2 := { s1 with sounds := s1.sounds.map (sfxVolumeUpd s1.sfxVolume) }
  triggerEvent s2 (EngineEvent.volumeChange "sfx" s2.sfxVolume)

/-- `toggleMusicMute()`: flips the flag, pauses/plays the current music
element, emits `muteChange`, returns the new flag. -/
def toggleMusicMute (s : SMState) : SMState × Bool :=
  let s1 := { s with isMusicMuted := !s.isMusicMuted }
  let s2 :=
    match s1.currentMusic with
    | some j =>
      match findSound s1 j with
      | some snd => setElem s1 snd.audio (fun a => { a with paused := s1.isMusicMuted })
      | none => s1
    | none => s1
  let s3 := triggerEvent s2 (EngineEvent.muteChange "music" s2.isMusicMuted)
  (s3, s3.isMusicMuted)

/-- `toggleSfxMute()`: flips the flag, pauses/plays every playing
non-music element, emits `muteChange`, returns the new flag. -/
def toggleSfxMute (s : SMState) : SMState × Bool :=
  let s1 := { s with isSfxMuted := !s.isSfxMuted }
  let s2 := s1.sounds.foldl (fun acc x =>
      if !x.isMusic && x.isPlaying then
        setElem acc x.audio (fun a => { a with paused := s1.isSfxMuted })
      else acc) s1
  let s3 := triggerEvent s2 (EngineEvent.muteChange "sfx" s2.isSfxMuted)
  (s3, s3.isSfxMuted)

/-- `setMusicMute(muted)`: early return when the flag already equals the
request, else delegates to the toggle. -/
def setMusicMute (s : SMState) (muted : Bool) : SMState :=
  if s.isMusicMuted == muted then s else (toggleMusicMute s).1

/-- `setSfxMute(muted)`: same shape as `setMusicMute`. -/
def setSfxMute (s : SMState) (muted : Bool) : SMState :=
  if s.isSfxMuted == muted then s else (toggleSfxMute s).1

/-! ### Lifecycle -/

def bgStep (acc : SMState) (x : Snd) : SMState :=
  if x.isPlaying then setElem acc x.audio (fun a => { a with paused := true }) else acc

/-- Background transition: pauses the element of every sound whose
`isPlaying` flag is set (the flag itself is left untouched). -/
def handleBackgroundTransition (s : SMState) : SMState :=
  s.sounds.foldl bgStep s

/-- Foreground transition: plays the current music element, but only when
the music channel is unmuted at this moment; nothing else is touched. -/
def handleForegroundTransition (s : SMState) : SMState :=
  match s.currentMusic with
  | some j =>
    if s.isMusicMuted then s
    else
      match findSound s j with
      | some snd => setElem s snd.audio (fun a => { a with paused := false })
      | none => s
  | none => s

/-- `dispose()`: stops every registered sound, clears the registry, the
byte cache and the listener table, closes the context and resets the
initialization flag. -/
def dispose (s : SMState) : SMState :=
  let s1 := s.sounds.foldl (fun acc x => stop acc x.id {}) s
  { s1 with sounds := [], soundsCache := [], audioContextLive := false,
            currentMusic := none, isInitialized := false }

/-! ### Queries and derived observations -/

def isPlayingQ (s : SMState) (id : String) : Bool :=
  match findSound s id with
  | some snd => snd.isPlaying
  | none => false

def getCurrentMusic (s : SMState) : Option String := s.currentMusic

/-- Ids of registered sounds currently in `Playing` state with
`isMusic = true`. -/
def playingMusicIds (s : SMState) : List String :=
  (s.sounds.filter (fun x => x.isMusic && x.isPlaying)).map (fun x => x.id)

/-- Paused flag of the element backing a sound (`true` when missing). -/
def soundElemPaused (s : SMState) (id : String) : Bool :=
  match findSound s id with
  | some snd => (elemOf s snd.audio).paused
  | none => true

/-- The sound exists and its element is present in the heap. -/
def soundElemExists (s : SMState) (id : String) : Bool :=
  match findSound s id with
  | some snd => elemExists s snd.audio
  | none => false

/-- Heap key of the element backing the current music, when it resolves. -/
def currentMusicAudio (s : SMState) : Option Nat :=
  match s.currentMusic with
  | some j => (findSound s j).map (fun x => x.audio)
  | none => none

/-- Current gain-node value of a sound. -/
def gainValueOf (s : SMState) (id : String) : Option Q :=
  match findSound s id with
  | some snd => snd.gain.map (fun g => g.value)
  | none => none

/-- Number of gain ramps scheduled on a sound whose target time is still
in the future: the "fades active" for that sound. -/
def activeFadeCount (s : SMState) (id : String) : Nat :=
  match findSound s id with
  | some snd =>
    match snd.gain with
    | some g =>
      (g.events.filter (fun e =>
        match e with
        | GainEvent.rampTo t _ => decide (s.now < t)
        | _ => false)).length
    | none => 0
  | none => 0

/-! ### Concrete executions used by the theorems below -/

/-- Fresh engine after `init()`. -/
def initial : SMState := init {}

/-- Trace A: two music tracks loaded; `m1` played plainly, then `m2`
played with a 1-second `fadeOut` handed to the implied stop of `m1`. -/
def traceA1 : SMState := (loadSound initial "m1" "a.mp3" true).1

def traceA2 : SMState := (loadSound traceA1 "m2" "b.mp3" true).1

def traceA3 : SMState := (play traceA2 "m1" {}).1

def traceA4 : SMState := (play traceA3 "m2" { fadeOut := some 1 }).1

/-- Trace A continued: the pending fade-out timer of `m1` fires. -/
def traceA5 : SMState := fireStopTimer traceA4 { due := 1, soundId := "m1" }

/-- Trace A variant: `m2` played with no fade-out. -/
def traceA4n : SMState := (play traceA3 "m2" {}).1

/-- Trace A continued differently: channel volume set to 1/2 while the
fade-out of `m1` is still pending. -/
def traceA6 : SMState := setMusicVolume traceA4 (mkQ 1 2)

/-- Trace B: `m1` played with `fadeIn = 2`, stopped immediately with
`fadeOut = 1`, then the stop timer fires. -/
def traceB2 : SMState := (play traceA1 "m1" { fadeIn := some 2 }).1

def traceB3 : SMState := stop traceB2 "m1" { fadeOut := some 1 }

def traceB4 : SMState := fireStopTimer traceB3 { due := 1, soundId := "m1" }

/-- Trace C: one music track loaded, the music channel muted, then
`play` attempted against the muted channel. -/
def traceC2 : SMState := setMusicMute traceA1 true

def traceC3 : SMState := (play traceC2 "m1" {}).1

/-- Trace D: music `m1` playing, effect `x` loaded afterwards (so that it
receives a distinct pooled element) and playing, app backgrounded, the
music channel muted while hidden, app foregrounded. -/
def traceD2 : SMState := (play traceA1 "m1" {}).1

def traceD3 : SMState := (loadSound traceD2 "x" "c.mp3" false).1

def traceD4 : SMState := (play traceD3 "x" {}).1

def traceD5 : SMState := handleBackgroundTransition traceD4

def traceD6 : SMState := setMusicMute traceD5 true

def traceD7 : SMState := handleForegroundTransition traceD6

/-- Trace E: interleaving of two concurrent `loadSound('x', 'u.mp3')`
calls; the second starts before the first fetch has resolved. -/
def traceE0 : LoadProc := { id := "x", url := "u.mp3" }

def traceE1 : SMState × LoadProc := loadStep initial traceE0

def traceE2 : SMState × LoadProc := loadStep traceE1.1 traceE0

def traceE3 : SMState × LoadProc := loadStep traceE2.1 traceE1.2

def traceE4 : SMState × LoadProc := loadStep traceE3.1 traceE2.2

/-- Gain-automation events recorded on a sound's gain node. -/
def gainEventsOf (s : SMState) (id : String) : Option (List GainEvent) :=
  match findSound s id with
  | some snd => snd.gain.map (fun g => g.events)
  | none => none

/-- Per-voice volume override of a registered sound. -/
def optVolumeOf (s : SMState) (id : String) : Option Q :=
  (findSound s id).map (fun x => optVolume x.options)

/-- `n` successive `getAudioFromPool()` calls. -/
def acquireN : Nat → SMState → SMState
  | 0, s => s
  | n + 1, s => acquireN n (getAudioFromPool s).2

/-! ### General list lemmas for the association-list containers -/

theorem find?_map_eq {α : Type} (p : α → Bool) (f : α → α)
    (hp : ∀ x, p (f x) = p x) :
    ∀ l : List α, (l.map f).find? p = (l.find? p).map f := by
  intro l
  induction l with
  | nil => rfl
  | cons a t ih =>
    cases h : p a with
    | true =>
      rw [List.map_cons, List.find?_cons_of_pos _ (by rw [hp]; exact h),
        List.find?_cons_of_pos _ h, Option.map_some']
    | false =>
      rw [List.map_cons, List.find?_cons_of_neg _ (by rw [hp, h]; exact Bool.false_ne_true),
        List.find?_cons_of_neg _ (by rw [h]; exact Bool.false_ne_true), ih]

theorem find?_append_of_none {α : Type} (p : α → Bool) {l1 : List α} (l2 : List α)
    (h : l1.find? p = none) : (l1 ++ l2).find? p = l2.find? p := by
  induction l1 with
  | nil => rfl
  | cons a t ih =>
    cases hp : p a with
    | true => rw [List.find?_cons_of_pos _ hp] at h; exact absurd h (by simp)
    | false =>
      rw [List.find?_cons_of_neg _ (by rw [hp]; exact Bool.false_ne_true)] at h
      rw [List.cons_append,
        List.find?_cons_of_neg _ (by rw [hp]; exact Bool.false_ne_true)]
      exact ih h

/-! ### Heap lemmas -/

theorem lookup_upd_same (l : List (Nat × AudioElem)) (e : Nat) (f : AudioElem → AudioElem) :
    lookupElem (updElem l e f) e = (lookupElem l e).map f := by
  unfold lookupElem updElem
  have hm := find?_map_eq (fun p : Nat × AudioElem => p.1 == e)
    (fun p => if p.1 == e then (p.1, f p.2) else p)
    (fun x => by by_cases h : x.1 = e <;> simp [h]) l
  rw [hm]
  cases h : l.find? (fun p => p.1 == e) with
  | none => rfl
  | some q =>
    have hq' : q.1 = e := by simpa using List.find?_some h
    simp [hq']

theorem lookup_upd_other (l : List (Nat × AudioElem)) {e e' : Nat}
    (f : AudioElem → AudioElem) (h : e' ≠ e) :
    lookupElem (updElem l e f) e' = lookupElem l e' := by
  unfold lookupElem updElem
  have hm := find?_map_eq (fun p : Nat × AudioElem => p.1 == e')
    (fun p => if p.1 == e then (p.1, f p.2) else p)
    (fun x => by by_cases hx : x.1 = e <;> simp [hx]) l
  rw [hm]
  cases hf : l.find? (fun p => p.1 == e') with
  | none => rfl
  | some q =>
    have hq' : q.1 = e' := by simpa using List.find?_some hf
    simp [Option.map_some', hq', h]

theorem elemOf_setElem_same (s : SMState) (e : Nat) (f : AudioElem → AudioElem)
    (h : elemExists s e = true) :
    elemOf (setElem s e f) e = f (elemOf s e) := by
  unfold elemOf setElem
  unfold elemExists at h
  rw [lookup_upd_same]
  cases hl : lookupElem s.elems e with
  | none => rw [hl] at h; simp at h
  | some a => simp [hl]

theorem elemOf_setElem_other (s : SMState) {e e' : Nat} (f : AudioElem → AudioElem)
    (h : e' ≠ e) : elemOf (setElem s e f) e' = elemOf s e' := by
  unfold elemOf setElem
  rw [lookup_upd_other _ f h]

theorem paused_setElem_target (s : SMState) (e : Nat) :
    (elemOf (setElem s e (fun a => { a with paused := true })) e).paused = true := by
  unfold elemOf setElem
  rw [lookup_upd_same]
  cases hl : lookupElem s.elems e with
  | none => rfl
  | some a => rfl

/-! ### Registry lemmas -/

theorem findSound_some_id {s : SMState} {id : String} {snd : Snd}
    (h : findSound s id = some snd) : snd.id = id := by
  simpa using List.find?_some h

theorem findSound_setElem (s : SMState) (e : Nat) (f : AudioElem → AudioElem)
    (id : String) : findSound (setElem s e f) id = findSound s id := rfl

theorem findSound_triggerEvent (s : SMState) (ev : EngineEvent) (id : String) :
    findSound (triggerEvent s ev) id = findSound s id := rfl

theorem findSound_setSound (s : SMState) (j id : String) (f : Snd → Snd)
    (hf : ∀ x, (f x).id = x.id) :
    findSound (setSound s j f) id =
      (findSound s id).map (fun x => if x.id == j then f x else x) := by
  unfold findSound setSound
  exact find?_map_eq (fun x : Snd => x.id == id)
    (fun x => if x.id == j then f x else x)
    (fun x => by by_cases h : x.id = j <;> simp [h, hf]) s.sounds

theorem elemOf_setSound (s : SMState) (j : String) (f : Snd → Snd) (e : Nat) :
    elemOf (setSound s j f) e = elemOf s e := rfl

theorem elemOf_triggerEvent (s : SMState) (ev : EngineEvent) (e : Nat) :
    elemOf (triggerEvent s ev) e = elemOf s e := rfl

/-! ### Background-transition lemmas -/

theorem bgStep_sounds (acc : SMState) (x : Snd) : (bgStep acc x).sounds = acc.sounds := by
  unfold bgStep
  split <;> rfl

theorem foldl_bgStep_sounds : ∀ (l : List Snd) (acc : SMState),
    (l.foldl bgStep acc).sounds = acc.sounds := by
  intro l
  induction l with
  | nil => intro acc; rfl
  | cons y t ih => intro acc; rw [List.foldl_cons, ih, bgStep_sounds]

theorem bgStep_paused_keep (acc : SMState) (x : Snd) (e : Nat)
    (h : (elemOf acc e).paused = true) : (elemOf (bgStep acc x) e).paused = true := by
  unfold bgStep
  split
  · by_cases he : e = x.audio
    · subst he; exact paused_setElem_target acc x.audio
    · rw [elemOf_setElem_other acc _ he]; exact h
  · exact h

theorem bgStep_pauses (acc : SMState) (x : Snd) (h : x.isPlaying = true) :
    (elemOf (bgStep acc x) x.audio).paused = true := by
  unfold bgStep
  rw [if_pos (by rw [h])]
  exact paused_setElem_target acc x.audio

theorem bg_fold_pauses : ∀ (l : List Snd) (acc : SMState) (e : Nat),
    ((elemOf acc e).paused = true ∨ ∃ x, x ∈ l ∧ x.isPlaying = true ∧ x.audio = e) →
    (elemOf (l.foldl bgStep acc) e).paused = true := by
  intro l
  induction l with
  | nil =>
    intro acc e h
    rcases h with h | ⟨x, hx, _, _⟩
    · exact h
    · exact absurd hx (List.not_mem_nil x)
  | cons y t ih =>
    intro acc e h
    rw [List.foldl_cons]
    rcases h with h | ⟨x, hx, hp, ha⟩
    · exact ih _ e (Or.inl (bgStep_paused_keep acc y e h))
    · rcases List.mem_cons.mp hx with rfl | hxt
      · refine ih _ e (Or.inl ?_)
        rw [← ha]
        exact bgStep_pauses acc x hp
      · exact ih _ e (Or.inr ⟨x, hxt, hp, ha⟩)

/-! ### Foreground-transition lemmas -/

theorem findSound_bg (s : SMState) (id : String) :
    findSound (handleBackgroundTransition s) id = findSound s id := by
  unfold findSound handleBackgroundTransition
  rw [foldl_bgStep_sounds]

theorem fg_resumes (s : SMState) (j : String) (hc : s.currentMusic = some j)
    (hm : s.isMusicMuted = false) (he : soundElemExists s j = true) :
    soundElemPaused (handleForegroundTransition s) j = false := by
  unfold soundElemExists at he
  cases hf : findSound s j with
  | none => rw [hf] at he; exact absurd he (by simp)
  | some snd =>
    rw [hf] at he
    unfold handleForegroundTransition soundElemPaused
    simp only [hc, hm, Bool.false_eq_true, if_false, hf, findSound_setElem]
    rw [elemOf_setElem_same s snd.audio _ he]

theorem fg_muted (s : SMState) (hm : s.isMusicMuted = true) :
    handleForegroundTransition s = s := by
  unfold handleForegroundTransition
  cases s.currentMusic with
  | none => rfl
  | some j => simp [hm]

theorem fg_other (s : SMState) (id : String) (e : Nat)
    (hf : (findSound s id).map (fun x => x.audio) = some e)
    (hne : currentMusicAudio s ≠ some e) :
    soundElemPaused (handleForegroundTransition s) id = soundElemPaused s id := by
  unfold handleForegroundTransition
  unfold currentMusicAudio at hne
  cases hc : s.currentMusic with
  | none => rfl
  | some j =>
    rw [hc] at hne
    dsimp only at hne
    by_cases hm : s.isMusicMuted
    · simp [hm]
    · cases hj : findSound s j with
      | none => simp [hm, hj]
      | some sndj =>
        rw [hj] at hne
        have hae : sndj.audio ≠ e := by
          intro hcontra
          exact hne (by simp [hcontra])
        rcases Option.map_eq_some'.mp hf with ⟨snd, hfs, hsa⟩
        have hne2 : snd.audio ≠ sndj.audio := by
          rw [hsa]
          intro hx
          exact hae hx.symm
        unfold soundElemPaused
        simp only [hm, Bool.false_eq_true, if_false, hj, findSound_setElem, hfs]
        rw [elemOf_setElem_other s _ hne2]

theorem bg_pauses_playing (s : SMState) (id : String) (hp : isPlayingQ s id = true) :
    soundElemPaused (handleBackgroundTransition s) id = true := by
  unfold isPlayingQ at hp
  cases hf : findSound s id with
  | none => rw [hf] at hp; exact absurd hp (by simp)
  | some snd =>
    rw [hf] at hp
    unfold soundElemPaused
    rw [findSound_bg, hf]
    unfold handleBackgroundTransition
    refine bg_fold_pauses s.sounds s snd.audio (Or.inr ⟨snd, ?_, hp, rfl⟩)
    unfold findSound at hf
    exact List.mem_of_find?_eq_some hf

theorem bg_then_fg (s : SMState) (id : String) (e : Nat)
    (hp : isPlayingQ s id = true)
    (hf : (findSound s id).map (fun x => x.audio) = some e)
    (hne : currentMusicAudio (handleBackgroundTransition s) ≠ some e) :
    soundElemPaused (handleForegroundTransition (handleBackgroundTransition s)) id = true := by
  have hf2 : (findSound (handleBackgroundTransition s) id).map (fun x => x.audio) = some e := by
    rw [findSound_bg]; exact hf
  rw [fg_other (handleBackgroundTransition s) id e hf2 hne]
  exact bg_pauses_playing s id hp

/-! ## Claim C1 -/

/-- Claim C1 is FALSE on the code: in the reachable state `traceA4` —
after `play('m1')` then `play('m2')` with a `fadeOut` of 1 — BOTH
`m1` and `m2` are registered music sounds with `isPlaying = true`, because
`stop` with a fade-out only clears `isPlaying` in the deferred
`setTimeout`, which is still pending.  So two music descriptors are in
`Playing` state while the fade-out passed to the new `play` call is in
progress. -/
theorem C1_counterexample :
    playingMusicIds traceA4 = ["m1", "m2"] ∧
    (playingMusicIds traceA4).length = 2 ∧
    traceA4.timers = [{ due := 1, soundId := "m1" }] := by decide

/-- Claim C1 (amended): when `play` is called on a music sound while a
different music sound is current, `stop` is invoked on the previous sound
before the new one becomes current.  With no `fadeOut` in the new call the
previous sound leaves `Playing` immediately, so at most one music sound is
playing afterwards; with a `fadeOut`, the previous sound remains in
`Playing` state (alongside the new one) until the scheduled fade-out timer
fires, and only after that timer runs is at most one music sound playing
again. -/
theorem C1_amended_thm :
    playingMusicIds traceA4n = ["m2"] ∧ getCurrentMusic traceA4n = some "m2" ∧
    isPlayingQ traceA4 "m1" = true ∧ getCurrentMusic traceA4 = some "m2" ∧
    playingMusicIds traceA5 = ["m2"] := by decide

/-! ## Claim C3 -/

/-- Claim C3 is FALSE on the code: in trace D the music channel is
unmuted at backgrounding time (`traceD4.isMusicMuted = false`, music `m1`
playing and current), the channel is muted while hidden, and after the
foreground transition the music element is still paused — the code
decides resumption by the mute flag at foregrounding time, not at
backgrounding time as the claim states. -/
theorem C3_counterexample :
    traceD4.isMusicMuted = false ∧ isPlayingQ traceD4 "m1" = true ∧
    getCurrentMusic traceD4 = some "m1" ∧
    soundElemPaused traceD7 "m1" = true := by decide

/-- Claim C3 (amended): after a background transition followed by a
foreground transition, the current music voice is resumed if and only if
the music channel is unmuted at the time of FOREGROUNDING; a non-music
voice that was playing at backgrounding time is never resumed by the
foreground transition (its element stays paused whenever it is distinct
from the current music element).  Conjuncts: (1) unmuted at foregrounding
resumes the current music element; (2) muted at foregrounding changes
nothing; (3) the foreground transition touches no element other than the
current music element; (4) the background transition pauses the element
of every playing sound; (5) composition: a playing voice whose element is
not the current music element is still paused after background +
foreground. -/
theorem C3_amended_thm :
    (∀ s j, s.currentMusic = some j → s.isMusicMuted = false →
      soundElemExists s j = true →
      soundElemPaused (handleForegroundTransition s) j = false) ∧
    (∀ s, s.isMusicMuted = true → handleForegroundTransition s = s) ∧
    (∀ s id e, (findSound s id).map (fun x => x.audio) = some e →
      currentMusicAudio s ≠ some e →
      soundElemPaused (handleForegroundTransition s) id = soundElemPaused s id) ∧
    (∀ s id, isPlayingQ s id = true →
      soundElemPaused (handleBackgroundTransition s) id = true) ∧
    (∀ s id e, isPlayingQ s id = true →
      (findSound s id).map (fun x => x.audio) = some e →
      currentMusicAudio (handleBackgroundTransition s) ≠ some e →
      soundElemPaused (handleForegroundTransition (handleBackgroundTransition s)) id = true) :=
  ⟨fg_resumes, fg_muted, fg_other, bg_pauses_playing, bg_then_fg⟩

/-- Witness for C3 (amended) at concrete inputs: resuming the backgrounded
unmuted music of trace D, the muted no-op, and the backgrounded sound
effect staying paused. -/
theorem C3_witness :
    soundElemPaused (handleForegroundTransition traceD5) "m1" = false ∧
    handleForegroundTransition traceD6 = traceD6 ∧
    soundElemPaused (handleForegroundTransition (handleBackgroundTransition traceD4)) "x" = true :=
  ⟨C3_amended_thm.1 traceD5 "m1" (by decide) (by decide) (by decide),
   C3_amended_thm.2.1 traceD6 (by decide),
   C3_amended_thm.2.2.2.2 traceD4 "x" 1 (by decide) (by decide) (by decide)⟩

/-! ## Claim C4 -/

theorem getAudioFromPool_le (s : SMState) (h : s.audioPool.length ≤ maxPoolSize) :
    ((getAudioFromPool s).2).audioPool.length ≤ maxPoolSize := by
  unfold getAudioFromPool
  cases hfind : s.audioPool.find? (fun eid => (elemOf s eid).paused) with
  | some eid => exact h
  | none =>
    by_cases hlt : s.audioPool.length < maxPoolSize
    · simp only [hlt, if_true]
      have hcp : ((createPooledAudio s).2).audioPool = s.audioPool ++ [s.nextElem] := rfl
      rw [hcp, List.length_append]
      simpa using hlt
    · simp only [hlt, if_false]
      cases hp : s.audioPool with
      | nil =>
        exfalso
        rw [hp] at hlt
        exact hlt (by decide)
      | cons eid rest =>
        dsimp only
        rw [List.length_append]
        rw [hp] at h
        simpa using h

theorem acquireN_le : ∀ (n : Nat) (s : SMState), s.audioPool.length ≤ maxPoolSize →
    (acquireN n s).audioPool.length ≤ maxPoolSize := by
  intro n
  induction n with
  | zero => intro s h; exact h
  | succ m ih =>
    intro s h
    exact ih (getAudioFromPool s).2 (getAudioFromPool_le s h)

/-- Claim C4: over every sequence of `acquire` operations the pool length
never exceeds the capacity `maxPoolSize = 20`; and the acquisition policy
is exactly: (2) hand back the first idle (paused) element without
changing the pool, else (3) create and append a new element while under
capacity, else (4) evict the front (oldest) element of the pool, pausing
it even if currently active, and re-append it — pool length unchanged. -/
theorem C4_thm :
    (∀ (n : Nat) (s : SMState), s.audioPool.length ≤ maxPoolSize →
      (acquireN n s).audioPool.length ≤ maxPoolSize) ∧
    (∀ (s : SMState) (eid : Nat),
      s.audioPool.find? (fun i => (elemOf s i).paused) = some eid →
      getAudioFromPool s = (eid, s)) ∧
    (∀ s : SMState, s.audioPool.find? (fun i => (elemOf s i).paused) = none →
      s.audioPool.length < maxPoolSize →
      getAudioFromPool s = (s.nextElem, (createPooledAudio s).2) ∧
      ((createPooledAudio s).2).audioPool = s.audioPool ++ [s.nextElem]) ∧
    (∀ (s : SMState) (eid : Nat) (rest : List Nat),
      s.audioPool.find? (fun i => (elemOf s i).paused) = none →
      ¬ s.audioPool.length < maxPoolSize →
      s.audioPool = eid :: rest →
      getAudioFromPool s =
        (eid, { setElem s eid (fun a => { a with paused := true }) with
                  audioPool := rest ++ [eid] })) := by
  refine ⟨acquireN_le, ?_, ?_, ?_⟩
  · intro s eid hfind
    unfold getAudioFromPool
    rw [hfind]
  · intro s hfind hlt
    constructor
    · unfold getAudioFromPool
      rw [hfind]
      simp only [hlt, if_true]
      rfl
    · rfl
  · intro s eid rest hfind hlt hp
    unfold getAudioFromPool
    rw [hfind, hp]
    rw [hp] at hlt
    simp only [hlt, if_false]

/-- Witness for C4 at concrete inputs: 25 successive acquisitions from
the freshly initialized engine stay within capacity, and the first
acquisition returns the first pre-created idle element untouched. -/
theorem C4_witness :
    (acquireN 25 initial).audioPool.length ≤ maxPoolSize ∧
    getAudioFromPool initial = (0, initial) :=
  ⟨C4_thm.1 25 initial (by decide), C4_thm.2.1 initial 0 (by decide)⟩

/-! ## Claim C7 -/

/-- Claim C7 is FALSE on the code: `stop` during an in-progress fade-in
does NOT cancel the fade-in ramp (the source never calls
`cancelScheduledValues`); immediately after
`play('m1', fadeIn 2); stop('m1', fadeOut 1)` the gain node still carries
the fade-in ramp to full volume at t = 2 alongside the new fade-out ramp
to 0 at t = 1 — two fades are scheduled for `m1` at once. -/
theorem C7_counterexample :
    activeFadeCount traceB3 "m1" = 2 ∧
    gainEventsOf traceB3 "m1" =
      some [GainEvent.setValueAt 0 0, GainEvent.rampTo 2 1,
            GainEvent.setValueAt 0 0, GainEvent.rampTo 1 0] := by decide

/-- Claim C7 (amended): calling `stop` during an in-progress fade-in does
not throw and proceeds with the stop sequence, but the fade-in ramp is
not cancelled — it remains scheduled alongside the fade-out ramp; after
the fade-out timer fires the sound is in the `Stopped` state with the
voice reset to position zero, the element paused and the audio nodes
released. -/
theorem C7_amended_thm :
    isPlayingQ traceB4 "m1" = false ∧ soundElemPaused traceB4 "m1" = true ∧
    (findSound traceB4 "m1").map (fun x => (elemOf traceB4 x.audio).currentTime) =
      some 0 ∧
    gainValueOf traceB4 "m1" = none ∧ traceB4.timers = [] := by decide

/-! ## Claim C6 -/

/-- Claim C6 is FALSE on the code in its warning part: playing a
registered sound whose owning channel is muted is a silent no-op — the
state is returned unchanged and NO warning is logged (the muted early
return at SoundManager.ts:295-297 has no `console.warn`). -/
theorem C6_counterexample :
    traceC2.isMusicMuted = true ∧ (findSound traceC2 "m1").isSome = true ∧
    play traceC2 "m1" {} = (traceC2, none) ∧ traceC2.warnings = [] := by decide

/-- Claim C6 (amended): on an initialized engine, `play(id, opts)` is a
state-preserving no-op returning no sound both when `id` is unknown and
when the owning channel is muted; a warning is logged only in the
unknown-id case, while the muted case is silent. -/
theorem C6_amended_thm :
    (∀ (s : SMState) (id : String) (opts : SoundOptions),
      s.isInitialized = true → s.audioContextLive = true → findSound s id = none →
      play s id opts =
        ({ s with warnings := s.warnings ++ ["Sound " ++ id ++ " not loaded"] }, none)) ∧
    (∀ (s : SMState) (id : String) (opts : SoundOptions) (snd : Snd),
      s.isInitialized = true → s.audioContextLive = true →
      findSound s id = some snd →
      ((snd.isMusic && s.isMusicMuted) || (!snd.isMusic && s.isSfxMuted)) = true →
      play s id opts = (s, none)) := by
  constructor
  · intro s id opts h1 h2 h3
    unfold play ensureInitialized
    simp [h1, h2, h3]
  · intro s id opts snd h1 h2 h3 h4
    unfold play ensureInitialized
    simp [h1, h2, h3, h4]

/-- Witness for C6 (amended): the unknown id `zz` and the muted music
sound `m1` of trace C. -/
theorem C6_witness :
    play traceC2 "zz" {} =
      ({ traceC2 with warnings := traceC2.warnings ++ ["Sound zz not loaded"] }, none) ∧
    play traceC2 "m1" {} = (traceC2, none) :=
  ⟨C6_amended_thm.1 traceC2 "zz" {} (by decide) (by decide) (by decide),
   C6_amended_thm.2 traceC2 "m1" {} { id := "m1", audio := 0, isMusic := true }
     (by decide) (by decide) (by decide) (by decide)⟩

/-! ## Claim C9 -/

theorem toggleMusicMute_flag (s : SMState) :
    ((toggleMusicMute s).1).isMusicMuted = !s.isMusicMuted := by
  unfold toggleMusicMute
  dsimp only
  split
  · split <;> rfl
  · rfl

theorem foldl_preserves {α : Type} (g : SMState → α → SMState) (P : SMState → Prop)
    (hg : ∀ acc x, P acc → P (g acc x)) :
    ∀ (l : List α) (acc : SMState), P acc → P (l.foldl g acc) := by
  intro l
  induction l with
  | nil => intro acc h; exact h
  | cons y t ih => intro acc h; exact ih (g acc y) (hg acc y h)

theorem toggleSfxMute_flag (s : SMState) :
    ((toggleSfxMute s).1).isSfxMuted = !s.isSfxMuted := by
  unfold toggleSfxMute
  dsimp only
  refine foldl_preserves _ (fun st => st.isSfxMuted = !s.isSfxMuted) ?_ s.sounds _ rfl
  intro acc x h
  dsimp only
  split
  · exact h
  · exact h

/-- Claim C9: setting a channel's mute state to its current value is a
complete no-op (state, elements, events all unchanged), for both the
music and the sfx channel; consequently setting the same mute value twice
equals setting it once. -/
theorem C9_thm :
    (∀ (s : SMState) (m : Bool), s.isMusicMuted = m → setMusicMute s m = s) ∧
    (∀ (s : SMState) (m : Bool), s.isSfxMuted = m → setSfxMute s m = s) ∧
    (∀ (s : SMState) (m : Bool), setMusicMute (setMusicMute s m) m = setMusicMute s m) ∧
    (∀ (s : SMState) (m : Bool), setSfxMute (setSfxMute s m) m = setSfxMute s m) := by
  refine ⟨?_, ?_, ?_, ?_⟩
  · intro s m h
    unfold setMusicMute
    rw [h]
    simp
  · intro s m h
    unfold setSfxMute
    rw [h]
    simp
  · intro s m
    by_cases h : s.isMusicMuted = m
    · have h1 : setMusicMute s m = s := by unfold setMusicMute; rw [h]; simp
      rw [h1]
      exact h1
    · have h1 : setMusicMute s m = (toggleMusicMute s).1 := by
        unfold setMusicMute
        simp [h]
      have h2 : ((toggleMusicMute s).1).isMusicMuted = m := by
        rw [toggleMusicMute_flag]
        cases hb : s.isMusicMuted <;> cases m <;> simp_all
      rw [h1]
      unfold setMusicMute
      rw [h2]
      simp
  · intro s m
    by_cases h : s.isSfxMuted = m
    · have h1 : setSfxMute s m = s := by unfold setSfxMute; rw [h]; simp
      rw [h1]
      exact h1
    · have h1 : setSfxMute s m = (toggleSfxMute s).1 := by
        unfold setSfxMute
        simp [h]
      have h2 : ((toggleSfxMute s).1).isSfxMuted = m := by
        rw [toggleSfxMute_flag]
        cases hb : s.isSfxMuted <;> cases m <;> simp_all
      rw [h1]
      unfold setSfxMute
      rw [h2]
      simp

/-- Witness for C9 at concrete inputs: re-asserting the current mute
state of the fresh engine changes nothing on either channel. -/
theorem C9_witness :
    setMusicMute initial false = initial ∧ setSfxMute initial false = initial :=
  ⟨C9_thm.1 initial false (by decide), C9_thm.2.1 initial false (by decide)⟩

/-! ## Claim C10 -/

/-- Claim C10: for every registered sound whose `isPlaying` flag is false
— whether `Paused` or fully `Stopped` — `resume(id)` starts the element
playing, sets `isPlaying` to true and emits a `resume` event; `resume`
never inspects how the sound became non-playing, so a stopped sound is
restartable through it. -/
theorem C10_thm :
    ∀ (s : SMState) (id : String) (snd : Snd),
      findSound s id = some snd → snd.isPlaying = false →
      elemExists s snd.audio = true →
      isPlayingQ (resume s id) id = true ∧
      soundElemPaused (resume s id) id = false ∧
      (resume s id).events = s.events ++ [EngineEvent.resumeEv id snd.isMusic] := by
  intro s id snd hf hp he
  have hid : snd.id = id := findSound_some_id hf
  unfold resume
  rw [hf]
  dsimp only
  simp only [hp, Bool.false_eq_true, if_false]
  refine ⟨?_, ?_, ?_⟩
  · unfold isPlayingQ
    rw [findSound_triggerEvent,
      findSound_setSound _ id id (fun x => { x with isPlaying := true }) (fun x => rfl),
      findSound_setElem, hf]
    simp [hid]
  · unfold soundElemPaused
    rw [findSound_triggerEvent,
      findSound_setSound _ id id (fun x => { x with isPlaying := true }) (fun x => rfl),
      findSound_setElem, hf]
    simp only [Option.map_some', hid, beq_self_eq_true, if_true]
    rw [elemOf_triggerEvent, elemOf_setSound]
    have hae : ({ snd with isPlaying := true } : Snd).audio = snd.audio := rfl
    rw [hae, elemOf_setElem_same s snd.audio _ he]
  · rfl

/-- Witness for C10 at a concrete input: the loaded-but-stopped music
sound `m1` of trace A is restarted by `resume`. -/
theorem C10_witness :
    isPlayingQ (resume traceA1 "m1") "m1" = true ∧
    soundElemPaused (resume traceA1 "m1") "m1" = false ∧
    (resume traceA1 "m1").events =
      traceA1.events ++ [EngineEvent.resumeEv "m1" true] :=
  C10_thm traceA1 "m1" { id := "m1", audio := 0, isMusic := true }
    (by decide) (by decide) (by decide)

/-! ## Claim C8 -/

theorem createPooledAudioN_init (n : Nat) :
    ∀ s : SMState, (createPooledAudioN n s).isInitialized = s.isInitialized := by
  induction n with
  | zero => intro s; rfl
  | succ m ih => intro s; exact ih (createPooledAudio s).2

theorem createPooledAudioN_ctx (n : Nat) :
    ∀ s : SMState, (createPooledAudioN n s).audioContextLive = s.audioContextLive := by
  induction n with
  | zero => intro s; rfl
  | succ m ih => intro s; exact ih (createPooledAudio s).2

/-- Claim C8: `dispose()` clears the registry, the asset cache, the
current-music reference and the audio context, and resets the engine to
the uninitialized state; afterwards `ensureInitialized` — the guard every
public call goes through — succeeds by lazily re-initializing (there is
no `AlreadyDisposed` failure state in the code at all). -/
theorem C8_thm : ∀ s : SMState,
    (dispose s).sounds = [] ∧ (dispose s).soundsCache = [] ∧
    (dispose s).audioContextLive = false ∧ (dispose s).currentMusic = none ∧
    (dispose s).isInitialized = false ∧
    (ensureInitialized (dispose s)).1 = true ∧
    ((ensureInitialized (dispose s)).2).isInitialized = true ∧
    ((ensureInitialized (dispose s)).2).audioContextLive = true := by
  intro s
  have hd5 : (dispose s).isInitialized = false := rfl
  refine ⟨rfl, rfl, rfl, rfl, rfl, ?_, ?_, ?_⟩
  · unfold ensureInitialized init
    simp [hd5, createPooledAudioN_init, createPooledAudioN_ctx]
  · unfold ensureInitialized init
    simp [hd5, createPooledAudioN_init]
  · unfold ensureInitialized init
    simp [hd5, createPooledAudioN_ctx]

/-! ## Claim C5 -/

theorem sfxVolumeUpd_id (sv : Q) (x : Snd) : (sfxVolumeUpd sv x).id = x.id := by
  unfold sfxVolumeUpd
  split
  · split <;> rfl
  · rfl

theorem find?_sounds_map (l : List Snd) (F : Snd → Snd)
    (hF : ∀ x, (F x).id = x.id) (id : String) :
    (l.map F).find? (fun x => x.id == id) = (l.find? (fun x => x.id == id)).map F :=
  find?_map_eq (fun x : Snd => x.id == id) F (fun x => by simp [hF]) l

/-- Claim C5 is FALSE on the code for the music channel: in `traceA6`
(state `traceA4` — where both `m1` and `m2` are playing music sounds with
gain nodes — after `setMusicVolume(1/2)`) the stored volume is the
clamped 1/2 and the CURRENT music `m2` received the new effective volume,
but the still-playing music voice `m1` kept its old gain of 1:
`setMusicVolume` re-applies the volume only to `currentMusic`, not to
every currently playing voice on the music channel. -/
theorem C5_counterexample :
    traceA6.musicVolume = clamp01 (mkQ 1 2) ∧
    (findSound traceA6 "m1").map (fun x => (x.isMusic, x.isPlaying, optVolume x.options)) =
      some (true, true, 1) ∧
    gainValueOf traceA6 "m1" = some 1 ∧
    clamp01 (mkQ 1 2) * 1 ≠ (1 : Q) ∧
    gainValueOf traceA6 "m2" = some (clamp01 (mkQ 1 2) * 1) := by decide

/-- Claim C5 (amended): `setMusicVolume` / `setSfxVolume` always succeed
and store exactly `clamp(v, 0, 1)`; `setSfxVolume` re-applies the new
effective volume (channel volume × per-voice override) to every currently
playing non-music voice that has a gain node; `setMusicVolume` re-applies
it ONLY to the current music track (when it has a gain node) and leaves
the gain of every other sound unchanged. -/
theorem C5_amended_thm :
    (∀ (s : SMState) (v : Q), (setMusicVolume s v).musicVolume = clamp01 v) ∧
    (∀ (s : SMState) (v : Q), (setSfxVolume s v).sfxVolume = clamp01 v) ∧
    (∀ (s : SMState) (v : Q) (id : String) (snd : Snd) (g : GainNode),
      findSound s id = some snd → snd.isMusic = false → snd.isPlaying = true →
      snd.gain = some g →
      gainValueOf (setSfxVolume s v) id = some (clamp01 v * optVolume snd.options)) ∧
    (∀ (s : SMState) (v : Q) (j : String) (snd : Snd) (g : GainNode),
      s.currentMusic = some j → findSound s j = some snd → snd.gain = some g →
      gainValueOf (setMusicVolume s v) j = some (clamp01 v * optVolume snd.options)) ∧
    (∀ (s : SMState) (v : Q) (id : String), s.currentMusic ≠ some id →
      gainValueOf (setMusicVolume s v) id = gainValueOf s id) := by
  refine ⟨?_, ?_, ?_, ?_, ?_⟩
  · intro s v
    unfold setMusicVolume triggerEvent
    dsimp only
    split
    · split
      · split
        · rfl
        · rfl
      · rfl
    · rfl
  · intro s v
    rfl
  · intro s v id snd g hf hm hp hg
    unfold setSfxVolume gainValueOf findSound triggerEvent
    dsimp only
    rw [find?_sounds_map s.sounds (sfxVolumeUpd (clamp01 v)) (sfxVolumeUpd_id (clamp01 v)) id]
    unfold findSound at hf
    rw [hf]
    simp [sfxVolumeUpd, hm, hp, hg]
  · intro s v j snd g hc hf hg
    have hid : snd.id = j := findSound_some_id hf
    have hf' : findSound { s with musicVolume := clamp01 v, currentMusic := some j } j = some snd := hf
    unfold setMusicVolume gainValueOf
    dsimp only
    rw [hc]
    dsimp only
    rw [hf']
    dsimp only
    rw [hg]
    dsimp only
    rw [findSound_triggerEvent,
      findSound_setSound _ j j (fun x => { x with gain := some { g with value := clamp01 v * optVolume x.options } }) (fun x => rfl),
      hf']
    simp [hid]
  · intro s v id hne
    unfold setMusicVolume gainValueOf
    dsimp only
    cases hc : s.currentMusic with
    | none => rfl
    | some j =>
      dsimp only
      have hj : j ≠ id := by
        intro hx
        exact hne (by rw [hc, hx])
      cases hf : findSound { s with musicVolume := clamp01 v, currentMusic := some j } j with
      | none => rfl
      | some snd =>
        dsimp only
        cases hg : snd.gain with
        | none => rfl
        | some g =>
          dsimp only
          rw [findSound_triggerEvent,
            findSound_setSound _ j id (fun x => { x with gain := some { g with value := clamp01 v * optVolume x.options } }) (fun x => rfl)]
          cases hfid : findSound { s with musicVolume := clamp01 v, currentMusic := some j } id with
          | none =>
            rw [show findSound s id = none from hfid]
            rfl
          | some sndid =>
            have hid2 : sndid.id = id :=
              findSound_some_id (show findSound s id = some sndid from hfid)
            rw [show findSound s id = some sndid from hfid]
            simp [hid2, beq_iff_eq, Ne.symm hj]

/-- Witness for C5 (amended) at concrete inputs from trace D: the stored
clamped volume, the playing effect `x` re-targeted by `setSfxVolume`, the
current music `m1` re-targeted by `setMusicVolume`, and the unrelated id
`x` left alone by `setMusicVolume`. -/
theorem C5_witness :
    (setMusicVolume traceD4 (mkQ 1 2)).musicVolume = clamp01 (mkQ 1 2) ∧
    gainValueOf (setSfxVolume traceD4 (mkQ 1 2)) "x" =
      some (clamp01 (mkQ 1 2) * optVolume {}) ∧
    gainValueOf (setMusicVolume traceD4 (mkQ 1 2)) "m1" =
      some (clamp01 (mkQ 1 2) * optVolume {}) ∧
    gainValueOf (setMusicVolume traceD4 (mkQ 1 2)) "x" = gainValueOf traceD4 "x" :=
  ⟨C5_amended_thm.1 traceD4 (mkQ 1 2),
   C5_amended_thm.2.2.1 traceD4 (mkQ 1 2) "x"
     { id := "x", audio := 1, isMusic := false, gain := some { value := 1 },
       panner := some 0, isPlaying := true, startTime := some 0 }
     { value := 1 } (by decide) (by decide) (by decide) (by decide),
   C5_amended_thm.2.2.2.1 traceD4 (mkQ 1 2) "m1"
     { id := "m1", audio := 0, isMusic := true, gain := some { value := 1 },
       panner := some 0, isPlaying := true, startTime := some 0 }
     { value := 1 } (by decide) (by decide) (by decide),
   C5_amended_thm.2.2.2.2 traceD4 (mkQ 1 2) "x" (by decide)⟩

/-! ## Claim C2 -/

theorem cache_getAudioFromPool (s : SMState) :
    ((getAudioFromPool s).2).soundsCache = s.soundsCache := by
  unfold getAudioFromPool
  split
  · rfl
  · split
    · rfl
    · split
      · rfl
      · rfl

theorem fetchLog_getAudioFromPool (s : SMState) :
    ((getAudioFromPool s).2).fetchLog = s.fetchLog := by
  unfold getAudioFromPool
  split
  · rfl
  · split
    · rfl
    · split
      · rfl
      · rfl

theorem cache_installSound (s : SMState) (id url : String) (m : Bool) :
    (installSound s id url m).soundsCache = s.soundsCache := by
  unfold installSound putSound
  dsimp only
  split
  · exact cache_getAudioFromPool s
  · exact cache_getAudioFromPool s

theorem fetchLog_installSound (s : SMState) (id url : String) (m : Bool) :
    (installSound s id url m).fetchLog = s.fetchLog := by
  unfold installSound putSound
  dsimp only
  split
  · exact fetchLog_getAudioFromPool s
  · exact fetchLog_getAudioFromPool s

theorem fetchLog_putCache (s : SMState) (url : String) (b : Nat) :
    (putCache s url b).fetchLog = s.fetchLog := by
  unfold putCache
  split <;> rfl

theorem fetchLog_triggerEvent (s : SMState) (e : EngineEvent) :
    (triggerEvent s e).fetchLog = s.fetchLog := rfl

theorem cache_triggerEvent (s : SMState) (e : EngineEvent) :
    (triggerEvent s e).soundsCache = s.soundsCache := rfl

theorem lookupCache_congr {s1 s2 : SMState} (h : s1.soundsCache = s2.soundsCache)
    (url : String) : lookupCache s1 url = lookupCache s2 url := by
  unfold lookupCache
  rw [h]

theorem lookupCache_putCache_same (s : SMState) (url : String) (b : Nat) :
    lookupCache (putCache s url b) url = some b := by
  unfold putCache lookupCache
  by_cases h : (s.soundsCache.any fun c => c.1 == url) = true
  · simp only [h, if_true]
    have hm := find?_map_eq (fun c : String × Nat => c.1 == url)
      (fun c => if c.1 == url then (url, b) else c)
      (fun c => by by_cases hcu : c.1 = url <;> simp [hcu]) s.soundsCache
    rw [hm]
    obtain ⟨x, hx, hpx⟩ := List.any_eq_true.mp h
    cases hfq : s.soundsCache.find? (fun c => c.1 == url) with
    | none => exact absurd hpx (by simpa using List.find?_eq_none.mp hfq x hx)
    | some q =>
      have hpq := List.find?_some hfq
      simp only [Option.map_some']
      simp at hpq
      simp [hpq]
  · have h' : (s.soundsCache.any fun c => c.1 == url) = false := by
      cases hb : (s.soundsCache.any fun c => c.1 == url)
      · rfl
      · exact absurd hb h
    simp only [h', Bool.false_eq_true, if_false]
    have hn : s.soundsCache.find? (fun c => c.1 == url) = none := by
      rw [List.find?_eq_none]
      intro x hx hpx
      exact h (List.any_eq_true.mpr ⟨x, hx, hpx⟩)
    rw [find?_append_of_none _ _ hn]
    simp

/-- Claim C2 is FALSE on the code: in trace E two `loadSound('x','u.mp3')`
calls run concurrently — the second starts (`traceE2`) while the first is
still awaiting its fetch (its phase after `traceE1` is `awaitFetch`) —
and the fetch log of the final state records TWO fetches of the same URL.
The source checks `soundsCache` before fetching but only fills it after
`await fetch` resolves, and keeps no pending-request map, so concurrent
loads are NOT coalesced. -/
theorem C2_counterexample :
    traceE1.2.phase = LoadPhase.awaitFetch ∧
    traceE2.2.phase = LoadPhase.awaitFetch ∧
    traceE4.1.fetchLog = ["u.mp3", "u.mp3"] ∧
    (traceE4.1.fetchLog.length = 1) = False := by decide

/-- Claim C2 (amended): `load` calls for the same URL are deduplicated
only SEQUENTIALLY: a `loadSound(id, url)` on an initialized engine with
`url` uncached and `id` unregistered performs exactly one fetch and
caches the bytes; any later `loadSound(id2, url)` call issued after the
first resolved performs no fetch at all (it is served from the registry
or the byte cache), returns a sound and leaves the cache unchanged.  Two
concurrent loads of the same URL each execute their own fetch
(`C2_counterexample`). -/
theorem C2_amended_thm :
    (∀ (s : SMState) (id url : String) (m : Bool),
      s.isInitialized = true → s.audioContextLive = true →
      (s.sounds.any fun y => y.id == id) = false →
      lookupCache s url = none →
      (loadSound s id url m).1.fetchLog = s.fetchLog ++ [url] ∧
      lookupCache (loadSound s id url m).1 url = some (fetchBytes url) ∧
      (loadSound s id url m).2 = some id) ∧
    (∀ (s : SMState) (id2 url : String) (m2 : Bool),
      s.isInitialized = true → s.audioContextLive = true →
      (lookupCache s url).isSome = true →
      (loadSound s id2 url m2).1.fetchLog = s.fetchLog ∧
      (loadSound s id2 url m2).1.soundsCache = s.soundsCache ∧
      (loadSound s id2 url m2).2 = some id2) := by
  have he : ∀ s : SMState, s.isInitialized = true → s.audioContextLive = true →
      ensureInitialized s = (true, s) := by
    intro s h1 h2
    unfold ensureInitialized
    simp [h1, h2]
  constructor
  · intro s id url m h1 h2 hany hcache
    unfold loadSound loadStep
    rw [he s h1 h2]
    simp only [Bool.not_true, Bool.false_eq_true, if_false, hany, hcache]
    refine ⟨?_, ?_, ?_⟩
    · rw [fetchLog_triggerEvent, fetchLog_installSound, fetchLog_putCache]
    · rw [lookupCache_congr (cache_triggerEvent _ _) url,
        lookupCache_congr (cache_installSound _ id url m) url,
        lookupCache_putCache_same]
    · trivial
  · intro s id2 url m2 h1 h2 hcache
    unfold loadSound loadStep
    rw [he s h1 h2]
    simp only [Bool.not_true, Bool.false_eq_true, if_false]
    by_cases hany : (s.sounds.any fun y => y.id == id2) = true
    · simp only [hany, if_true]
      exact ⟨trivial, trivial, trivial⟩
    · have hany' : (s.sounds.any fun y => y.id == id2) = false := by
        cases hb : (s.sounds.any fun y => y.id == id2)
        · rfl
        · exact absurd hb hany
      simp only [hany', Bool.false_eq_true, if_false]
      cases hlc : lookupCache s url with
      | none => rw [hlc] at hcache; exact absurd hcache (by simp)
      | some b =>
        dsimp only
        exact ⟨fetchLog_installSound s id2 url m2, cache_installSound s id2 url m2, rfl⟩

/-- Witness for C2 (amended) at concrete inputs: the first load of
`u.mp3` from the fresh engine fetches once and caches; a repeated load of
the same URL afterwards fetches nothing. -/
theorem C2_witness :
    ((loadSound initial "x" "u.mp3" false).1.fetchLog =
      initial.fetchLog ++ ["u.mp3"] ∧
     lookupCache (loadSound initial "x" "u.mp3" false).1 "u.mp3" =
      some (fetchBytes "u.mp3") ∧
     (loadSound initial "x" "u.mp3" false).2 = some "x") ∧
    ((loadSound (loadSound initial "x" "u.mp3" false).1 "x" "u.mp3" false).1.fetchLog =
      (loadSound initial "x" "u.mp3" false).1.fetchLog ∧
     (loadSound (loadSound initial "x" "u.mp3" false).1 "x" "u.mp3" false).1.soundsCache =
      (loadSound initial "x" "u.mp3" false).1.soundsCache ∧
     (loadSound (loadSound initial "x" "u.mp3" false).1 "x" "u.mp3" false).2 = some "x") :=
  ⟨C2_amended_thm.1 initial "x" "u.mp3" false (by decide) (by decide) (by decide) (by decide),
   C2_amended_thm.2 (loadSound initial "x" "u.mp3" false).1 "x" "u.mp3" false
     (by decide) (by decide) (by decide)⟩

end SoundManager
